import Mathlib

/-!
Verification of the hestia kernel-mode driver bootstrap and
process-notification subsystem (crate `hestia-driver`).

The Rust sources are shallowly embedded: the kernel/WDF primitives
(`WdfDriverCreate`, `WdfControlDeviceInitAllocate`, `WdfDeviceCreate`,
`WdfDeviceInitFree`, `PsSetCreateProcessNotifyRoutineEx`) are modelled by an
oracle `Kernel` holding the status codes and handle they would return, and
every embedded function additionally returns the list of primitive calls it
issued (`List PrimCall`), so that ordering, cleanup and fail-fast properties
of the source are stated over the call trace.
-/

namespace Hestia

/-- NTSTATUS is the OS's signed 32-bit status code space; modelled as `Int`
(the claims proved here do not depend on 32-bit wrap-around). -/
abbrev NTSTATUS := Int

/-- STATUS_SUCCESS from wdk-sys. -/
def STATUS_SUCCESS : NTSTATUS := 0

/-- STATUS_INVALID_PARAMETER = 0xC000000D from wdk-sys, as a signed 32-bit value. -/
def STATUS_INVALID_PARAMETER : NTSTATUS := -1073741811

/-- wdk::nt_success: NT_SUCCESS(status) holds exactly when status >= 0. -/
def nt_success (status : NTSTATUS) : Bool := decide (0 ≤ status)

/-- WDF object handles (WDFDRIVER, WDFDEVICE, ...) are opaque pointers;
modelled as `Nat`, with `0` standing for the null pointer
(`driver.is_null()` in the source becomes `driver = 0`). -/
abbrev Handle := Nat

/-- Identifiers for the driver-local callback functions whose addresses the
source passes to the framework (function items in driver.rs /
callbacks/process.rs); an `Option HandlerId` embeds the nullable
`PFN_WDF_DRIVER_DEVICE_ADD` / `PFN_WDF_DRIVER_UNLOAD` function pointers. -/
inductive HandlerId where
  | evtDriverUnload
  | evtIoDeviceControl
  deriving DecidableEq

/-- Identity of the function passed to PsSetCreateProcessNotifyRoutineEx;
the source always passes `Some(create_process_callback)`. -/
inductive CallbackId where
  | createProcessCallback
  deriving DecidableEq

/-- Builder from wdf/driver.rs (`pub struct WDFDriverConfig`). -/
structure WDFDriverConfig where
  evt_driver_device_add : Option HandlerId
  evt_driver_unload : Option HandlerId
  driver_init_flags : Nat
  driver_pool_tag : Nat
  deriving DecidableEq

/-- WDFDriverConfig::new: `Self { ..Default::default() }`, i.e. both handler
fields None and both ULONG fields zero. -/
def WDFDriverConfig.new : WDFDriverConfig :=
  ⟨none, none, 0, 0⟩

/-- Setter `driver_device_add` from wdf/driver.rs. -/
def WDFDriverConfig.driver_device_add (c : WDFDriverConfig)
    (h : Option HandlerId) : WDFDriverConfig :=
  { c with evt_driver_device_add := h }

/-- Setter `driver_unload` from wdf/driver.rs. -/
def WDFDriverConfig.driver_unload (c : WDFDriverConfig)
    (h : Option HandlerId) : WDFDriverConfig :=
  { c with evt_driver_unload := h }

/-- Setter `int_flags` from wdf/driver.rs (source spelling). -/
def WDFDriverConfig.int_flags (c : WDFDriverConfig) (f : Nat) : WDFDriverConfig :=
  { c with driver_init_flags := f }

/-- Setter `pool_tags` from wdf/driver.rs (source spelling). -/
def WDFDriverConfig.pool_tags (c : WDFDriverConfig) (t : Nat) : WDFDriverConfig :=
  { c with driver_pool_tag := t }

/-- The native WDF_DRIVER_CONFIG record from wdk-sys (x64 layout):
Size: ULONG; EvtDriverDeviceAdd, EvtDriverUnload: function pointers;
DriverInitFlags, DriverPoolTag: ULONG. -/
structure WDF_DRIVER_CONFIG where
  Size : Nat
  EvtDriverDeviceAdd : Option HandlerId
  EvtDriverUnload : Option HandlerId
  DriverInitFlags : Nat
  DriverPoolTag : Nat
  deriving DecidableEq

/-- size_of::<WDF_DRIVER_CONFIG>() on the x64 target: ULONG Size (4) +
padding (4) + two 8-byte function pointers + two ULONGs (4+4) = 32 bytes. -/
def sizeOfWDF_DRIVER_CONFIG : Nat := 32

/-- The `From<WDFDriverConfig> for WDF_DRIVER_CONFIG` impl in wdf/driver.rs:
stamps `Size: core::mem::size_of::<WDF_DRIVER_CONFIG>() as _` and copies the
four builder fields. -/
def WDFDriverConfig.into_native (val : WDFDriverConfig) : WDF_DRIVER_CONFIG :=
  ⟨sizeOfWDF_DRIVER_CONFIG, val.evt_driver_device_add, val.evt_driver_unload,
    val.driver_init_flags, val.driver_pool_tag⟩

/-- A call into a kernel/WDF primitive, with the arguments the source passes
that the claims are about. -/
inductive PrimCall where
  | wdfDriverCreate (config : WDF_DRIVER_CONFIG)
  | wdfControlDeviceInitAllocate (driver : Handle) (sddl : String)
  | wdfDeviceCreate
  | wdfDeviceInitFree
  | psSetCreateProcessNotifyRoutineEx (cb : CallbackId) (remove : Bool)
  deriving DecidableEq

/-- Oracle for the statuses and handle the kernel/WDF primitives return in
one run; the embedded functions are deterministic in it. -/
structure Kernel where
  wdfDriverCreateStatus : NTSTATUS
  wdfDriverCreateHandle : Handle
  wdfDeviceCreateStatus : NTSTATUS
  psSetInstallStatus : NTSTATUS
  psSetRemoveStatus : NTSTATUS
  deriving DecidableEq

/-- create_driver from wdf/driver.rs: calls WdfDriverCreate with the
configuration's native form; on a non-success status returns Err(status);
on success with a null driver pointer returns Err(STATUS_INVALID_PARAMETER);
otherwise Ok(driver). -/
def create_driver (k : Kernel) (config : WDFDriverConfig) :
    Except NTSTATUS Handle × List PrimCall :=
  let driver := k.wdfDriverCreateHandle
  let ntstatus := k.wdfDriverCreateStatus
  let tr := [PrimCall.wdfDriverCreate config.into_native]
  if nt_success ntstatus = false then
    (Except.error ntstatus, tr)
  else if driver = 0 then
    (Except.error STATUS_INVALID_PARAMETER, tr)
  else
    (Except.ok driver, tr)

/-- The SDDL string literal in create_device (driver.rs). -/
def SDDL_STRING : String := "D:P(A;;GA;;;SY)(A;;GA;;;BA)(A;;GA;;;WD)"

/-- Modelled from the spec: the SDDL security-contract string of section 6
of the specification, written from the spec's words, to be compared with the
source literal `SDDL_STRING`. -/
def SPEC_SDDL_STRING : String := "D:P(A;;GA;;;SY)(A;;GA;;;BA)(A;;GA;;;WD)"

/-- create_device from driver.rs: builds the SDDL unicode string, allocates
the control-device init descriptor (WdfControlDeviceInitAllocate with the
driver handle and the SDDL string), calls WdfDeviceCreate; if that status is
not a success, frees the init descriptor (WdfDeviceInitFree) and returns the
status; otherwise returns the status (the symlink/queue code that follows in
the source is commented out, so `ntstatus` from WdfDeviceCreate is the
returned value on both paths). -/
def create_device (k : Kernel) (driver : Handle) : NTSTATUS × List PrimCall :=
  let allocTr := [PrimCall.wdfControlDeviceInitAllocate driver SDDL_STRING]
  let ntstatus := k.wdfDeviceCreateStatus
  let createTr := allocTr ++ [PrimCall.wdfDeviceCreate]
  if nt_success ntstatus = false then
    (ntstatus, createTr ++ [PrimCall.wdfDeviceInitFree])
  else
    (ntstatus, createTr)

/-- install_create_process_callback from callbacks/process.rs: calls
PsSetCreateProcessNotifyRoutineEx(Some(create_process_callback), FALSE) and
propagates a non-success status as Err. -/
def install_create_process_callback (k : Kernel) :
    Except NTSTATUS Unit × List PrimCall :=
  let ntstatus := k.psSetInstallStatus
  let tr := [PrimCall.psSetCreateProcessNotifyRoutineEx
    CallbackId.createProcessCallback false]
  if nt_success ntstatus = false then (Except.error ntstatus, tr)
  else (Except.ok (), tr)

/-- uninstall_create_process_callback from callbacks/process.rs: same
primitive, same callback, with the remove flag TRUE. -/
def uninstall_create_process_callback (k : Kernel) :
    Except NTSTATUS Unit × List PrimCall :=
  let ntstatus := k.psSetRemoveStatus
  let tr := [PrimCall.psSetCreateProcessNotifyRoutineEx
    CallbackId.createProcessCallback true]
  if nt_success ntstatus = false then (Except.error ntstatus, tr)
  else (Except.ok (), tr)

/-- install_callbacks from callbacks/mod.rs: forwards to
install_create_process_callback with the `?` operator. -/
def install_callbacks (k : Kernel) : Except NTSTATUS Unit × List PrimCall :=
  match install_create_process_callback k with
  | (Except.error e, tr) => (Except.error e, tr)
  | (Except.ok _, tr) => (Except.ok (), tr)

/-- uninstall_callbacks from callbacks/mod.rs: forwards to
uninstall_create_process_callback with the `?` operator. -/
def uninstall_callbacks (k : Kernel) : Except NTSTATUS Unit × List PrimCall :=
  match uninstall_create_process_callback k with
  | (Except.error e, tr) => (Except.error e, tr)
  | (Except.ok _, tr) => (Except.ok (), tr)

/-- The configuration built at the top of `initialize_driver`:
`WDFDriverConfig::new().driver_unload(Some(evt_driver_unload))`. -/
def init_driver_config : WDFDriverConfig :=
  WDFDriverConfig.new.driver_unload (some HandlerId.evtDriverUnload)

/-- Embeds `initialize_driver` from driver.rs (renamed here): builds the
configuration with the unload handler bound, calls create_driver (returning
its Err status on failure), then create_device (returning its status when not
a success), then install_callbacks (returning its Err status on failure), and
finally STATUS_SUCCESS. -/
def init_driver (k : Kernel) : NTSTATUS × List PrimCall :=
  match create_driver k init_driver_config with
  | (Except.error ntstatus, tr1) => (ntstatus, tr1)
  | (Except.ok driver, tr1) =>
    let res := create_device k driver
    if nt_success res.1 = false then
      (res.1, tr1 ++ res.2)
    else
      match install_callbacks k with
      | (Except.error ntstatus, tr3) => (ntstatus, tr1 ++ res.2 ++ tr3)
      | (Except.ok _, tr3) => (STATUS_SUCCESS, tr1 ++ res.2 ++ tr3)

/-- Embeds `evt_driver_unload` from driver.rs: the body is a single trace
println; the uninstall_callbacks call present in the source is commented out,
so the handler issues no kernel primitive call. -/
def evt_driver_unload (driver : Handle) : List PrimCall := []

/-- Process-event classification: which of the two log branches of
create_process_callback runs. -/
inductive ProcessEvent where
  | creating
  | exiting
  deriving DecidableEq

/-- The PS_CREATE_NOTIFY_INFO record behind the nullable create_info pointer;
only its CreationStatus field matters to the claims (the source never reads
or writes any field — the CreationStatus access is commented out). -/
structure PS_CREATE_NOTIFY_INFO where
  CreationStatus : NTSTATUS
  deriving DecidableEq

/-- create_process_callback from callbacks/process.rs: tests create_info for
null and logs "is creating" when non-null, "is exiting" when null. The model
returns the classification together with the create_info memory after the
call: the source performs no write through the pointer, so the second
component is the argument unchanged. -/
def create_process_callback (process : Handle) (process_id : Nat)
    (create_info : Option PS_CREATE_NOTIFY_INFO) :
    ProcessEvent × Option PS_CREATE_NOTIFY_INFO :=
  if create_info.isSome then
    (ProcessEvent.creating, create_info)
  else
    (ProcessEvent.exiting, create_info)

/-- One application of a builder setter, for quantifying over every chain of
setter calls. -/
inductive Setter where
  | deviceAdd (h : Option HandlerId)
  | unloadHandler (h : Option HandlerId)
  | intFlags (f : Nat)
  | poolTags (t : Nat)
  deriving DecidableEq

/-- Apply one setter to a builder value. -/
def applySetter (c : WDFDriverConfig) : Setter → WDFDriverConfig
  | Setter.deviceAdd h => c.driver_device_add h
  | Setter.unloadHandler h => c.driver_unload h
  | Setter.intFlags f => c.int_flags f
  | Setter.poolTags t => c.pool_tags t

/-- Apply a chain of setters, left to right, to a builder value. -/
def applySetters (c : WDFDriverConfig) (ss : List Setter) : WDFDriverConfig :=
  ss.foldl applySetter c

/-- Number of WdfDeviceInitFree calls in a trace. -/
def freeCount (tr : List PrimCall) : Nat :=
  (tr.filter fun c => decide (c = PrimCall.wdfDeviceInitFree)).length

/-- The three orchestration steps of init_driver, for stating call order. -/
inductive StepTag where
  | createDriverStep
  | createDeviceStep
  | installStep
  deriving DecidableEq

/-- Step tag of a primitive call: WdfDriverCreate marks the create-driver
step, WdfDeviceCreate the create-device step, and the install (remove-flag
false) registration call the install step. -/
def stepTagOf : PrimCall → Option StepTag
  | PrimCall.wdfDriverCreate _ => some StepTag.createDriverStep
  | PrimCall.wdfDeviceCreate => some StepTag.createDeviceStep
  | PrimCall.psSetCreateProcessNotifyRoutineEx _ false => some StepTag.installStep
  | _ => none

/-- Orchestration steps attempted in a trace, in order. -/
def stepsOf (tr : List PrimCall) : List StepTag :=
  tr.filterMap stepTagOf

/-- The create_driver step succeeded: primitive success and non-null handle. -/
def driverStepOk (k : Kernel) : Prop :=
  nt_success k.wdfDriverCreateStatus = true ∧ k.wdfDriverCreateHandle ≠ 0

/-- The create_device step succeeded. -/
def deviceStepOk (k : Kernel) : Prop :=
  nt_success k.wdfDeviceCreateStatus = true

/-- The callback-install step succeeded. -/
def installStepOk (k : Kernel) : Prop :=
  nt_success k.psSetInstallStatus = true

/-- Kernel oracle in which every primitive succeeds. -/
def kAllOk : Kernel := ⟨0, 1, 0, 0, 0⟩

/-- Kernel oracle in which WdfDriverCreate fails with STATUS_UNSUCCESSFUL. -/
def kDrvFail : Kernel := ⟨-1073741823, 0, 0, 0, 0⟩

/-- Kernel oracle in which WdfDriverCreate reports success but yields a null
driver handle. -/
def kNullHandle : Kernel := ⟨0, 0, 0, 0, 0⟩

/-- Kernel oracle in which WdfDeviceCreate fails with STATUS_UNSUCCESSFUL. -/
def kDevFail : Kernel := ⟨0, 1, -1073741823, 0, 0⟩

/-- Kernel oracle in which PsSetCreateProcessNotifyRoutineEx (install) fails. -/
def kInstFail : Kernel := ⟨0, 1, 0, -1073741823, 0⟩

/-- SDDL string argument of a primitive call, when it has one. -/
def sddlOf : PrimCall → Option String
  | PrimCall.wdfControlDeviceInitAllocate _ s => some s
  | _ => none

/-- Callback identity argument of a registration primitive call. -/
def psCallbackOf : PrimCall → Option CallbackId
  | PrimCall.psSetCreateProcessNotifyRoutineEx cb _ => some cb
  | _ => none

/-- C9: the builder's new() has all handler fields absent and both numeric
fields zero, and each of the four setters changes exactly its own field,
leaving the other three unchanged. -/
theorem builder_new_zero_and_setters_frame (c : WDFDriverConfig)
    (h h2 : Option HandlerId) (f t : Nat) :
    (WDFDriverConfig.new.evt_driver_device_add = none ∧
      WDFDriverConfig.new.evt_driver_unload = none ∧
      WDFDriverConfig.new.driver_init_flags = 0 ∧
      WDFDriverConfig.new.driver_pool_tag = 0) ∧
    ((c.driver_device_add h).evt_driver_device_add = h ∧
      (c.driver_device_add h).evt_driver_unload = c.evt_driver_unload ∧
      (c.driver_device_add h).driver_init_flags = c.driver_init_flags ∧
      (c.driver_device_add h).driver_pool_tag = c.driver_pool_tag) ∧
    ((c.driver_unload h2).evt_driver_unload = h2 ∧
      (c.driver_unload h2).evt_driver_device_add = c.evt_driver_device_add ∧
      (c.driver_unload h2).driver_init_flags = c.driver_init_flags ∧
      (c.driver_unload h2).driver_pool_tag = c.driver_pool_tag) ∧
    ((c.int_flags f).driver_init_flags = f ∧
      (c.int_flags f).evt_driver_device_add = c.evt_driver_device_add ∧
      (c.int_flags f).evt_driver_unload = c.evt_driver_unload ∧
      (c.int_flags f).driver_pool_tag = c.driver_pool_tag) ∧
    ((c.pool_tags t).driver_pool_tag = t ∧
      (c.pool_tags t).evt_driver_device_add = c.evt_driver_device_add ∧
      (c.pool_tags t).evt_driver_unload = c.evt_driver_unload ∧
      (c.pool_tags t).driver_init_flags = c.driver_init_flags) :=
  ⟨⟨rfl, rfl, rfl, rfl⟩, ⟨rfl, rfl, rfl, rfl⟩, ⟨rfl, rfl, rfl, rfl⟩,
    ⟨rfl, rfl, rfl, rfl⟩, ⟨rfl, rfl, rfl, rfl⟩⟩

/-- C7: for every chain of builder setters applied to new(), the native
configuration record produced by into_native has its declared Size field
equal to size_of::<WDF_DRIVER_CONFIG>(). -/
theorem into_native_stamps_size (ss : List Setter) :
    ((applySetters WDFDriverConfig.new ss).into_native).Size =
      sizeOfWDF_DRIVER_CONFIG := rfl

/-- C5: on every execution of create_device, the one
WdfControlDeviceInitAllocate call passes exactly the SDDL string of the
specification, and the source literal equals the spec literal verbatim. -/
theorem create_device_sddl_verbatim (k : Kernel) (driver : Handle) :
    (create_device k driver).2.filterMap sddlOf = [SPEC_SDDL_STRING] ∧
    SDDL_STRING = SPEC_SDDL_STRING := by
  constructor
  · unfold create_device
    by_cases h : nt_success k.wdfDeviceCreateStatus = false <;>
      simp [h, sddlOf, SDDL_STRING, SPEC_SDDL_STRING]
  · rfl

/-- C8: the Callback Registry's install issues exactly one registration call
with remove-flag false, uninstall exactly one with remove-flag true, and the
callback identity passed is the same (create_process_callback) in both. -/
theorem callback_registry_flags_and_identity (k : Kernel) :
    (install_callbacks k).2 =
      [PrimCall.psSetCreateProcessNotifyRoutineEx
        CallbackId.createProcessCallback false] ∧
    (uninstall_callbacks k).2 =
      [PrimCall.psSetCreateProcessNotifyRoutineEx
        CallbackId.createProcessCallback true] ∧
    (install_callbacks k).2.filterMap psCallbackOf =
      (uninstall_callbacks k).2.filterMap psCallbackOf := by
  unfold install_callbacks uninstall_callbacks
    install_create_process_callback uninstall_create_process_callback
  by_cases h1 : nt_success k.psSetInstallStatus = false <;>
    by_cases h2 : nt_success k.psSetRemoveStatus = false <;>
      simp [h1, h2, psCallbackOf]

/-- C6: create_process_callback classifies the event as a creation exactly
when the creation-info argument is non-null and as an exit exactly when it is
null, independently of the process reference and the process id. -/
theorem create_process_callback_classification (process : Handle)
    (process_id : Nat) (create_info : Option PS_CREATE_NOTIFY_INFO) :
    ((create_process_callback process process_id create_info).1 =
        ProcessEvent.creating ↔ create_info ≠ none) ∧
    ((create_process_callback process process_id create_info).1 =
        ProcessEvent.exiting ↔ create_info = none) ∧
    (∀ (p2 : Handle) (pid2 : Nat),
      (create_process_callback p2 pid2 create_info).1 =
        (create_process_callback process process_id create_info).1) := by
  unfold create_process_callback
  cases create_info <;> simp

/-- C6 witness: concrete classification of a creation and of an exit event. -/
theorem create_process_callback_classification_witness :
    (create_process_callback 1 4 (some ⟨0⟩)).1 = ProcessEvent.creating ∧
    (create_process_callback 1 4 none).1 = ProcessEvent.exiting :=
  ⟨(create_process_callback_classification 1 4 (some ⟨0⟩)).1.mpr (by simp),
    (create_process_callback_classification 1 4 none).2.1.mpr rfl⟩

/-- C10: create_process_callback performs no write through the creation-info
pointer (the memory is returned unchanged), its classification does not
depend on the pointee (only on nullness), it never inspects the process
reference, and it is defined on a null creation-info. -/
theorem create_process_callback_no_deref_no_write (process : Handle)
    (process_id : Nat) (create_info : Option PS_CREATE_NOTIFY_INFO) :
    ((create_process_callback process process_id create_info).2 =
        create_info) ∧
    (∀ i i2 : PS_CREATE_NOTIFY_INFO,
      (create_process_callback process process_id (some i)).1 =
        (create_process_callback process process_id (some i2)).1) ∧
    (∀ p2 : Handle,
      create_process_callback p2 process_id create_info =
        create_process_callback process process_id create_info) ∧
    (create_process_callback process process_id none =
        (ProcessEvent.exiting, none)) := by
  unfold create_process_callback
  cases create_info <;> simp

/-- C2: evaluation of the unload handler as the source has it: for every
driver handle the body issues no kernel primitive call at all (the
uninstall_callbacks call is commented out in driver.rs), so in particular no
registration-removal call. -/
theorem evt_driver_unload_issues_no_calls (driver : Handle) :
    evt_driver_unload driver = [] := rfl

/-- C3: on every execution of create_device, the WdfDeviceCreate status is
returned unchanged; when it is not a success the init descriptor is freed
exactly once (one WdfDeviceInitFree call) before returning, and when it is a
success no WdfDeviceInitFree call is made. -/
theorem create_device_frees_init_exactly_once_on_failure
    (k : Kernel) (driver : Handle) :
    ((create_device k driver).1 = k.wdfDeviceCreateStatus) ∧
    (nt_success k.wdfDeviceCreateStatus = false →
      freeCount (create_device k driver).2 = 1) ∧
    (nt_success k.wdfDeviceCreateStatus = true →
      freeCount (create_device k driver).2 = 0) := by
  unfold create_device freeCount
  cases h : nt_success k.wdfDeviceCreateStatus <;> simp [h, List.filter]

/-- C3 witness: a failing WdfDeviceCreate leads to exactly one
WdfDeviceInitFree call. -/
theorem create_device_frees_init_witness :
    nt_success kDevFail.wdfDeviceCreateStatus = false ∧
    freeCount (create_device kDevFail 1).2 = 1 :=
  ⟨by decide,
    (create_device_frees_init_exactly_once_on_failure kDevFail 1).2.1
      (by decide)⟩

/-- C4: create_driver returns the invalid-parameter failure when the
primitive reports success but the handle is null, returns the primitive's
status as the error when the primitive fails, and returns Ok only when the
primitive succeeded with a non-null handle (and then that very handle). -/
theorem create_driver_null_handle_guard (k : Kernel)
    (config : WDFDriverConfig) :
    (nt_success k.wdfDriverCreateStatus = true →
      k.wdfDriverCreateHandle = 0 →
      (create_driver k config).1 = Except.error STATUS_INVALID_PARAMETER) ∧
    (nt_success k.wdfDriverCreateStatus = false →
      (create_driver k config).1 = Except.error k.wdfDriverCreateStatus) ∧
    (∀ d : Handle, (create_driver k config).1 = Except.ok d →
      nt_success k.wdfDriverCreateStatus = true ∧
        k.wdfDriverCreateHandle ≠ 0 ∧ d = k.wdfDriverCreateHandle) := by
  unfold create_driver
  cases h1 : nt_success k.wdfDriverCreateStatus <;>
    by_cases h2 : k.wdfDriverCreateHandle = 0 <;>
      simp [h1, h2]

/-- C4 witness: a success status with a null handle yields the
invalid-parameter failure. -/
theorem create_driver_null_handle_guard_witness :
    nt_success kNullHandle.wdfDriverCreateStatus = true ∧
    (create_driver kNullHandle init_driver_config).1 =
      Except.error STATUS_INVALID_PARAMETER :=
  ⟨by decide,
    (create_driver_null_handle_guard kNullHandle init_driver_config).1
      (by decide) (by decide)⟩

/-- Evaluation lemma: the invalid-parameter failure code is not a success. -/
theorem nt_success_invalid_parameter :
    nt_success STATUS_INVALID_PARAMETER = false := by decide

/-- C1: init_driver attempts the orchestration steps in the fixed order
create-driver, create-device, install; the device step is attempted only if
the driver step succeeded and the install step only if the device step also
succeeded; each failing step's status is returned unchanged; and a success
status is returned only when every step succeeded (and then it is
STATUS_SUCCESS). -/
theorem init_driver_fail_fast (k : Kernel) :
    (stepsOf (init_driver k).2 = [StepTag.createDriverStep] ∨
      stepsOf (init_driver k).2 =
        [StepTag.createDriverStep, StepTag.createDeviceStep] ∨
      stepsOf (init_driver k).2 =
        [StepTag.createDriverStep, StepTag.createDeviceStep,
          StepTag.installStep]) ∧
    (StepTag.createDeviceStep ∈ stepsOf (init_driver k).2 → driverStepOk k) ∧
    (StepTag.installStep ∈ stepsOf (init_driver k).2 →
      driverStepOk k ∧ deviceStepOk k) ∧
    (nt_success k.wdfDriverCreateStatus = false →
      (init_driver k).1 = k.wdfDriverCreateStatus) ∧
    (nt_success k.wdfDriverCreateStatus = true →
      k.wdfDriverCreateHandle = 0 →
      (init_driver k).1 = STATUS_INVALID_PARAMETER) ∧
    (driverStepOk k → nt_success k.wdfDeviceCreateStatus = false →
      (init_driver k).1 = k.wdfDeviceCreateStatus) ∧
    (driverStepOk k → deviceStepOk k →
      nt_success k.psSetInstallStatus = false →
      (init_driver k).1 = k.psSetInstallStatus) ∧
    (driverStepOk k → deviceStepOk k → installStepOk k →
      (init_driver k).1 = STATUS_SUCCESS) ∧
    (nt_success (init_driver k).1 = true →
      driverStepOk k ∧ deviceStepOk k ∧ installStepOk k) := by
  unfold init_driver create_driver create_device install_callbacks
    install_create_process_callback driverStepOk deviceStepOk installStepOk
  cases h1 : nt_success k.wdfDriverCreateStatus <;>
    by_cases h2 : k.wdfDriverCreateHandle = 0 <;>
      cases h3 : nt_success k.wdfDeviceCreateStatus <;>
        cases h4 : nt_success k.psSetInstallStatus <;>
          simp [h1, h2, h3, h4, stepsOf, stepTagOf,
            nt_success_invalid_parameter]

/-- C1 witness: with a failing install primitive, the driver and device steps
succeed and init_driver returns the install failure status unchanged. -/
theorem init_driver_fail_fast_witness :
    driverStepOk kInstFail ∧ deviceStepOk kInstFail ∧
    (init_driver kInstFail).1 = -1073741823 :=
  ⟨by unfold driverStepOk; decide, by unfold deviceStepOk; decide,
    (init_driver_fail_fast kInstFail).2.2.2.2.2.2.1
      (by unfold driverStepOk; decide) (by unfold deviceStepOk; decide)
      (by decide)⟩

end Hestia
